import Mathlib

/-! # ESP32 sleep-mode sketches: a shallow embedding

The five sketches under `src/esp32-sleep-modes/src` share their building
blocks verbatim (`updateLED`, `flashActiveLED`, `readButton`, `pressed`,
`released`, `held`, `waitForNextCycle`).  Those are embedded once in the
namespace `SleepModes`; the `setup` and `loop` of each sketch live in a
namespace of their own (`LedSetup`, `TimeControl`, `LightSleep`, `DeepSleep`).

Conventions
* `uint8_t` and `uint32_t` values are natural numbers; every operation that can
  leave the range is followed by an explicit `% 256` or `% 4294967296`.
* Calls that act on the hardware are recorded, in program order, in a list of
  `Effect`s.  Calls that read the hardware (`digitalRead`, `millis`,
  `esp_sleep_get_wakeup_cause`) are inputs of the embedded functions.
-/

namespace SleepModes

/-! ## Hardware vocabulary -/

/-- Logic level of a pin (`LOW` is 0 and `HIGH` is 1 in Arduino.h). -/
inductive Level where
  | LOW
  | HIGH
  deriving DecidableEq, Repr

/-- Pin direction passed to `pinMode`. -/
inductive PinMode where
  | INPUT
  | OUTPUT
  deriving DecidableEq, Repr

/-- Values of `esp_sleep_get_wakeup_cause()` (type of the ESP-IDF, taken as an
input alphabet; only `ESP_SLEEP_WAKEUP_TIMER` is named by the sketches). -/
inductive WakeupCause where
  | ESP_SLEEP_WAKEUP_UNDEFINED
  | ESP_SLEEP_WAKEUP_EXT0
  | ESP_SLEEP_WAKEUP_EXT1
  | ESP_SLEEP_WAKEUP_TIMER
  | ESP_SLEEP_WAKEUP_TOUCHPAD
  | ESP_SLEEP_WAKEUP_ULP
  deriving DecidableEq, Repr

/-- One call that acts on the hardware. -/
inductive Effect where
  | pinMode (pin : Nat) (mode : PinMode)
  | digitalWrite (pin : Nat) (level : Level)
  | delay (ms : Nat)
  | esp_sleep_enable_timer_wakeup (us : Nat)
  | esp_light_sleep_start
  | esp_deep_sleep_start
  deriving DecidableEq, Repr

/-! ## Constants -/

/-- Modulus of `uint8_t` arithmetic. -/
def U8 : Nat := 256

/-- Modulus of `uint32_t` arithmetic. -/
def U32 : Nat := 4294967296

/-- Embeds `LED_PINS[] = { GPIO_NUM_27, GPIO_NUM_25, GPIO_NUM_32 }`. -/
def LED_PINS : List Nat := [27, 25, 32]

/-- Embeds `const uint8_t LED_NUMBER = 3`. -/
def LED_NUMBER : Nat := 3

/-- Embeds `const uint16_t LOOP_FREQUENCY = 25` (Hz). -/
def LOOP_FREQUENCY : Nat := 25

/-- Embeds `const uint16_t WAIT_PERIOD = 1000 / LOOP_FREQUENCY` (ms). -/
def WAIT_PERIOD : Nat := 1000 / LOOP_FREQUENCY

/-- Embeds `const uint32_t SLEEP_DURATION = 4 * 1000000` (µs). -/
def SLEEP_DURATION : Nat := (4 * 1000000) % U32

/-- The array read `LED_PINS[i]`.  Reading outside the array is undefined in
C++; the embedding returns 0 there. -/
def ledPin (i : Nat) : Nat := LED_PINS.getD i 0

/-! ## State -/

/-- Embeds `struct Timer { uint32_t laptime; uint32_t ticks; }`. -/
structure Timer where
  laptime : Nat
  ticks : Nat
  deriving DecidableEq, Repr

/-- Embeds `struct Button { gpio_num_t pin; uint8_t state; }`. -/
structure Button where
  pin : Nat
  state : Nat
  deriving DecidableEq, Repr

/-- The global variables of the light-sleep and deep-sleep sketches. -/
structure Sketch where
  ledIndex : Nat
  timer : Timer
  shiftButton : Button
  sleepButton : Button
  deriving DecidableEq, Repr

/-! ## Active LED lighting -/

/-- The statement `++ledIndex %= LED_NUMBER` on a `uint8_t`. -/
def shiftLed (ledIndex : Nat) : Nat := ((ledIndex + 1) % U8) % LED_NUMBER

/-- Embeds `updateLED()`: one `digitalWrite` per LED pin, `HIGH` for the active one. -/
def updateLED (ledIndex : Nat) : List Effect :=
  (List.range LED_NUMBER).map fun i =>
    Effect.digitalWrite (ledPin i) (if i = ledIndex then Level.HIGH else Level.LOW)

/-- Embeds `flashActiveLED()`: eleven rounds of `digitalWrite` then `delay(100)`. -/
def flashActiveLED (ledIndex : Nat) : List Effect :=
  (List.range 11).flatMap fun i =>
    [Effect.digitalWrite (ledPin ledIndex) (if i % 2 = 0 then Level.HIGH else Level.LOW),
     Effect.delay 100]

/-! ## Button status handling -/

/-- Embeds `readButton(b)`, with `level` the value returned by `digitalRead(b->pin)`. -/
def readButton (b : Button) (level : Level) : Button :=
  let pressed : Bool := level = Level.HIGH
  if pressed then
    if b.state < 0xfe then { b with state := (b.state + 1) % U8 }
    else if b.state = 0xfe then { b with state := 2 }
    else b
  else if b.state ≠ 0 then
    { b with state := if b.state = 0xff then 0 else 0xff }
  else b

/-- Embeds `pressed(b)`. -/
def pressed (b : Button) : Bool := b.state = 1

/-- Embeds `released(b)`. -/
def released (b : Button) : Bool := b.state = 0xff

/-- Embeds `held(b)`. -/
def held (b : Button) : Bool := b.state > 1 && b.state < 0xff

/-- The button after each of a sequence of `readButton` samples. -/
def samples (b : Button) : List Level → List Button
  | [] => []
  | level :: rest => readButton b level :: samples (readButton b level) rest

/-- The counters after each of a sequence of `readButton` samples. -/
def counters (b : Button) (levels : List Level) : List Nat :=
  (samples b levels).map Button.state

/-- The button after `n` consecutive pressed samples. -/
def pressTimes (b : Button) : Nat → Button
  | 0 => b
  | n + 1 => readButton (pressTimes b n) Level.HIGH

/-! ## Time control of the main loop -/

/-- The `uint32_t` subtraction `a - b`. -/
def sub32 (a b : Nat) : Nat := (a % U32 + (U32 - b % U32)) % U32

/-- Embeds `waitForNextCycle()`.  The list holds the successive values returned by
`millis()`; the result is the updated timer and the readings not consumed, or
`none` when the readings run out while the loop is still waiting. -/
def waitForNextCycle (timer : Timer) : List Nat → Option (Timer × List Nat)
  | [] => none
  | now :: later =>
    if sub32 now timer.laptime < WAIT_PERIOD then waitForNextCycle timer later
    else some ({ laptime := now, ticks := (timer.ticks + 1) % U32 }, later)

/-! ## Reading a trace -/

/-- The level a trace leaves on `pin`: that of the last `digitalWrite` to it. -/
def pinLevel (pin : Nat) : List Effect → Option Level
  | [] => none
  | Effect.digitalWrite p level :: later =>
    match pinLevel pin later with
    | some l => some l
    | none => if p = pin then some level else none
  | _ :: later => pinLevel pin later

/-- The pins a trace drives `HIGH`, one entry per such `digitalWrite`. -/
def highWrites : List Effect → List Nat
  | [] => []
  | Effect.digitalWrite p Level.HIGH :: later => p :: highWrites later
  | _ :: later => highWrites later

/-- The durations of the wake-timer configurations of a trace, in order. -/
def wakeTimers : List Effect → List Nat
  | [] => []
  | Effect.esp_sleep_enable_timer_wakeup us :: later => us :: wakeTimers later
  | _ :: later => wakeTimers later

/-- The number of suspend calls (light or deep) of a trace. -/
def suspendCalls : List Effect → Nat
  | [] => 0
  | Effect.esp_light_sleep_start :: later => suspendCalls later + 1
  | Effect.esp_deep_sleep_start :: later => suspendCalls later + 1
  | _ :: later => suspendCalls later

/-- The number of `delay` calls of a trace.  In the sleep sketches only
`flashActiveLED` calls `delay`, eleven times per indication. -/
def delayCalls : List Effect → Nat
  | [] => 0
  | Effect.delay _ :: later => delayCalls later + 1
  | _ :: later => delayCalls later

/-! ## Sketch 1: setting up the LED control -/

namespace LedSetup

/-- Embeds `setup()` of `1-led-setup.h`. -/
def setup (ledIndex : Nat) : List Effect :=
  (List.range LED_NUMBER).map (fun i => Effect.pinMode (ledPin i) PinMode.OUTPUT)
    ++ [Effect.digitalWrite (ledPin ledIndex) Level.HIGH]

/-- Embeds `loop()` of `1-led-setup.h`: the new `ledIndex` and the calls made. -/
def loop (ledIndex : Nat) : Nat × List Effect :=
  (shiftLed ledIndex, updateLED ledIndex ++ [Effect.delay 200])

end LedSetup

/-! ## Sketch 3: timing regulation of the main loop -/

namespace TimeControl

/-- The global variables of `3-time-control.h`. -/
structure Sketch where
  ledIndex : Nat
  timer : Timer
  deriving DecidableEq, Repr

/-- Embeds `setup()` of `3-time-control.h`, with `now` the value of `millis()`. -/
def setup (s : Sketch) (now : Nat) : Sketch × List Effect :=
  ({ s with timer := { laptime := now, ticks := 0 } },
   (List.range LED_NUMBER).map (fun i => Effect.pinMode (ledPin i) PinMode.OUTPUT)
    ++ [Effect.digitalWrite (ledPin s.ledIndex) Level.HIGH])

/-- The condition `5 * timer.ticks % LOOP_FREQUENCY == 0` of `loop()`; the
product is a `uint32_t`. -/
def loopGate (ticks : Nat) : Bool := ((5 * ticks) % U32) % LOOP_FREQUENCY = 0

/-- Embeds `loop()` of `3-time-control.h`: the calls made, and the state and unread
clock readings once `waitForNextCycle()` has returned. -/
def loop (s : Sketch) (clock : List Nat) : List Effect × Option (Sketch × List Nat) :=
  let ledIndex := if loopGate s.timer.ticks then shiftLed s.ledIndex else s.ledIndex
  let shown := if loopGate s.timer.ticks then updateLED ledIndex else []
  (shown, (waitForNextCycle s.timer clock).map fun r =>
    ({ ledIndex := ledIndex, timer := r.1 }, r.2))

end TimeControl

/-! ## Sketch 5: light sleep mode -/

namespace LightSleep

/-- The globals as initialised at program start. -/
def initial : Sketch :=
  { ledIndex := 0
    timer := { laptime := 0, ticks := 0 }
    shiftButton := { pin := 4, state := 0 }
    sleepButton := { pin := 2, state := 0 } }

/-- Embeds `setup()` of `5-light-sleep-mode.h`, with `now` the value of `millis()`. -/
def setup (s : Sketch) (now : Nat) : Sketch × List Effect :=
  ({ s with timer := { laptime := now, ticks := 0 } },
   [Effect.pinMode s.shiftButton.pin PinMode.INPUT,
    Effect.pinMode s.sleepButton.pin PinMode.INPUT]
    ++ (List.range LED_NUMBER).map (fun i => Effect.pinMode (ledPin i) PinMode.OUTPUT)
    ++ [Effect.digitalWrite (ledPin s.ledIndex) Level.HIGH])

/-- Embeds `lightSleep()`; `esp_light_sleep_start()` returns at wake-up. -/
def lightSleep : List Effect :=
  [Effect.esp_sleep_enable_timer_wakeup SLEEP_DURATION, Effect.esp_light_sleep_start]

/-- Embeds `loop()` of `5-light-sleep-mode.h`.  `shiftLevel` and `sleepLevel` are the
values `digitalRead` returns for the two buttons.  The result is the calls made
and, once `waitForNextCycle()` has returned, the state and the unread clock
readings. -/
def loop (s : Sketch) (shiftLevel sleepLevel : Level) (clock : List Nat) :
    List Effect × Option (Sketch × List Nat) :=
  let shiftButton := readButton s.shiftButton shiftLevel
  let sleepButton := readButton s.sleepButton sleepLevel
  let ledIndex := if pressed shiftButton then shiftLed s.ledIndex else s.ledIndex
  let shown := if pressed shiftButton then updateLED ledIndex else []
  let slept := if released sleepButton then lightSleep ++ flashActiveLED ledIndex else []
  (shown ++ slept, (waitForNextCycle s.timer clock).map fun r =>
    ({ ledIndex := ledIndex, timer := r.1, shiftButton := shiftButton,
       sleepButton := sleepButton }, r.2))

end LightSleep

/-! ## Sketch 6: deep sleep mode -/

namespace DeepSleep

/-- How one pass through `loop()` ends.  Once `esp_deep_sleep_start()` is
entered it does not return: the chip restarts from `setup()` at wake-up, so the
statements that follow the call (the source marks them "is performed only after
a light sleep") do not run. -/
inductive Outcome where
  -- loop() returned
  | next (s : Sketch) (later : List Nat)
  -- the clock readings ran out inside waitForNextCycle()
  | waiting
  -- esp_deep_sleep_start() was entered; it does not return
  | asleep (s : Sketch)
  deriving DecidableEq, Repr

/-- Ordinary memory as initialised at program start, around the retained
`RTC_DATA_ATTR uint8_t ledIndex`. -/
def memory (ledIndex : Nat) : Sketch :=
  { ledIndex := ledIndex
    timer := { laptime := 0, ticks := 0 }
    shiftButton := { pin := 4, state := 0 }
    sleepButton := { pin := 2, state := 0 } }

/-- The globals at power-on: `ledIndex = 0`. -/
def initial : Sketch := memory 0

/-- Embeds `setup()` of `6-deep-sleep-mode.h`, with `now` the value of `millis()` and
`cause` that of `esp_sleep_get_wakeup_cause()`. -/
def setup (s : Sketch) (now : Nat) (cause : WakeupCause) : Sketch × List Effect :=
  ({ s with timer := { laptime := now, ticks := 0 } },
   [Effect.pinMode s.shiftButton.pin PinMode.INPUT,
    Effect.pinMode s.sleepButton.pin PinMode.INPUT]
    ++ (List.range LED_NUMBER).map (fun i => Effect.pinMode (ledPin i) PinMode.OUTPUT)
    ++ [Effect.digitalWrite (ledPin s.ledIndex) Level.HIGH]
    ++ (if cause = WakeupCause.ESP_SLEEP_WAKEUP_TIMER then flashActiveLED s.ledIndex else []))

/-- Embeds `deepSleep()`; control does not come back from `esp_deep_sleep_start()`. -/
def deepSleep : List Effect :=
  [Effect.esp_sleep_enable_timer_wakeup SLEEP_DURATION, Effect.esp_deep_sleep_start]

/-- Embeds `loop()` of `6-deep-sleep-mode.h`: the calls made and how the pass ends. -/
def loop (s : Sketch) (shiftLevel sleepLevel : Level) (clock : List Nat) :
    List Effect × Outcome :=
  let shiftButton := readButton s.shiftButton shiftLevel
  let sleepButton := readButton s.sleepButton sleepLevel
  let ledIndex := if pressed shiftButton then shiftLed s.ledIndex else s.ledIndex
  let shown := if pressed shiftButton then updateLED ledIndex else []
  let s1 : Sketch := { ledIndex := ledIndex, timer := s.timer, shiftButton := shiftButton,
                       sleepButton := sleepButton }
  if released sleepButton then
    (shown ++ deepSleep, Outcome.asleep s1)
  else
    (shown, match waitForNextCycle s.timer clock with
            | some r => Outcome.next { s1 with timer := r.1 } r.2
            | none => Outcome.waiting)

/-- The restart after a deep sleep: `ledIndex` is retained, the rest of the
memory is initialised afresh, then `setup()` runs. -/
def restart (s : Sketch) (now : Nat) (cause : WakeupCause) : Sketch × List Effect :=
  setup (memory s.ledIndex) now cause

/-- The calls a restart makes ahead of the wake-cause test of `setup()`, written
out: the button pins 4 and 2, the LED pins, and the active LED switched on. -/
def setupCalls (ledIndex : Nat) : List Effect :=
  [Effect.pinMode 4 PinMode.INPUT, Effect.pinMode 2 PinMode.INPUT,
   Effect.pinMode 27 PinMode.OUTPUT, Effect.pinMode 25 PinMode.OUTPUT,
   Effect.pinMode 32 PinMode.OUTPUT, Effect.digitalWrite (ledPin ledIndex) Level.HIGH]

end DeepSleep

/-! ## Button status handling: theorems -/

/-- C1: for every 8-bit counter and every raw level `readButton` follows the
debounce transition rule: a pressed sample gives `s + 1` below 254, 2 at 254 and
leaves 255 alone; a released sample gives 0 at 0 and at 255, and 255 otherwise.
The pin is untouched, and the samples pressed, pressed, pressed, released,
released on an idle button give the counters 1, 2, 3, 255, 0. -/
theorem readButton_transition_rule (b : Button) (level : Level) (h : b.state < 256) :
    (readButton b level).pin = b.pin ∧
    (level = Level.HIGH →
      (readButton b level).state =
        if b.state < 254 then b.state + 1 else if b.state = 254 then 2 else b.state) ∧
    (level = Level.LOW →
      (readButton b level).state = if b.state = 0 ∨ b.state = 255 then 0 else 255) ∧
    counters { pin := b.pin, state := 0 }
      [Level.HIGH, Level.HIGH, Level.HIGH, Level.LOW, Level.LOW] = [1, 2, 3, 255, 0] := by
  refine ⟨?_, ?_, ?_, ?_⟩
  · cases level <;> simp only [readButton] <;> split_ifs <;> rfl
  · intro hl
    subst hl
    simp only [readButton, U8]
    split_ifs <;> simp_all
    omega
  · intro hl
    subst hl
    simp only [readButton]
    split_ifs <;> simp_all
  · rfl

/-- Witness of C1: a pressed sample takes the saturation marker 254 to 2, and a
released sample takes a held counter to 255. -/
theorem readButton_transition_rule_witness :
    (readButton { pin := 4, state := 254 } Level.HIGH).state
        = (if 254 < 254 then 254 + 1 else if 254 = 254 then 2 else 254) ∧
    (readButton { pin := 4, state := 7 } Level.LOW).state
        = (if 7 = 0 ∨ 7 = 255 then 0 else 255) :=
  ⟨(readButton_transition_rule { pin := 4, state := 254 } Level.HIGH (by decide)).2.1 rfl,
   (readButton_transition_rule { pin := 4, state := 7 } Level.LOW (by decide)).2.2.1 rfl⟩

/-- C9: for every 8-bit counter exactly one of idle (`state == 0`), `pressed`,
`held` and `released` holds; `pressed` holds only at 1 and `released` only at
255. -/
theorem button_band_exactly_one (b : Button) (h : b.state < 256) :
    [decide (b.state = 0), pressed b, held b, released b].count true = 1 ∧
    (pressed b = true ↔ b.state = 1) ∧
    (released b = true ↔ b.state = 255) ∧
    (held b = true ↔ 1 < b.state ∧ b.state < 255) := by
  have hp : pressed b = decide (b.state = 1) := rfl
  have hr : released b = decide (b.state = 255) := rfl
  have hh : held b = (decide (1 < b.state) && decide (b.state < 255)) := rfl
  refine ⟨?_, by simp [hp], by simp [hr], by simp [hh]⟩
  rw [hp, hr, hh]
  rcases Nat.lt_or_ge b.state 1 with h0 | h0
  · have e : b.state = 0 := by omega
    simp [e]
  · rcases Nat.lt_or_ge b.state 2 with h1 | h1
    · have e : b.state = 1 := by omega
      simp [e]
    · rcases Nat.lt_or_ge b.state 255 with h2 | h2
      · have n0 : b.state ≠ 0 := by omega
        have n1 : b.state ≠ 1 := by omega
        have n2 : b.state ≠ 255 := by omega
        have g1 : 1 < b.state := by omega
        simp [n0, n1, n2, g1, h2]
      · have e : b.state = 255 := by omega
        simp [e]

/-- Witness of C9 on a held button. -/
theorem button_band_exactly_one_witness :
    [decide ((7 : Nat) = 0), pressed { pin := 2, state := 7 }, held { pin := 2, state := 7 },
      released { pin := 2, state := 7 }].count true = 1 :=
  (button_band_exactly_one { pin := 2, state := 7 } (by decide)).1

/-- C3, as stated, fails: from counter 2 a released sample gives 255, and a
pressed sample right after it leaves the counter at 255, so `released` is true
after both samples. -/
theorem release_pulse_pressed_counterexample :
    released (readButton { pin := 2, state := 2 } Level.LOW) = true ∧
    released (readButton (readButton { pin := 2, state := 2 } Level.LOW) Level.HIGH) = true := by
  decide

/-- C3, amended: if `released` is true after a sample and the next sample is a
released one, then `released` is false after it (the counter is back to 0). -/
theorem release_pulse_one_tick (b : Button) (level : Level)
    (h : released (readButton b level) = true) :
    released (readButton (readButton b level) Level.LOW) = false ∧
    (readButton (readButton b level) Level.LOW).state = 0 := by
  have e : (readButton b level).state = 255 := by simpa [released] using h
  have e2 : (readButton (readButton b level) Level.LOW).state = 0 := by
    generalize readButton b level = c at e
    simp [readButton, e]
  exact ⟨by simp [released, e2], e2⟩

/-- Witness of the amended C3: releasing a held button, then one more released
sample. -/
theorem release_pulse_one_tick_witness :
    released (readButton { pin := 2, state := 9 } Level.LOW) = true ∧
    released (readButton (readButton { pin := 2, state := 9 } Level.LOW) Level.LOW) = false :=
  ⟨by decide, (release_pulse_one_tick { pin := 2, state := 9 } Level.LOW (by decide)).1⟩

/-! ## A button kept pressed -/

/-- Pressing once more at the start is pressing once more at the end. -/
theorem pressTimes_readButton (b : Button) (n : Nat) :
    pressTimes (readButton b Level.HIGH) n = pressTimes b (n + 1) := by
  induction n with
  | zero => rfl
  | succ k ih => simp only [pressTimes] at ih ⊢; rw [ih]

/-- The samples of `n` pressed levels are the successive `pressTimes`. -/
theorem samples_replicate_high (b : Button) (n : Nat) :
    samples b (List.replicate n Level.HIGH)
      = (List.range n).map fun k => pressTimes b (k + 1) := by
  induction n generalizing b with
  | zero => rfl
  | succ k ih =>
    rw [List.replicate_succ, samples, ih, List.range_succ_eq_map, List.map_cons, List.map_map]
    congr 1
    apply List.map_congr_left
    intro i _
    exact pressTimes_readButton b (i + 1)

/-- Closed form of the counter of an idle button after `k + 1` pressed samples:
1, then 2, 3, ..., 254 over and over. -/
theorem pressTimes_state (b : Button) (h0 : b.state = 0) (k : Nat) :
    (pressTimes b (k + 1)).state = if k = 0 then 1 else 2 + (k - 1) % 253 := by
  induction k with
  | zero => simp [pressTimes, readButton, h0, U8]
  | succ j ih =>
    have step : (pressTimes b (j + 1 + 1)).state
        = (readButton (pressTimes b (j + 1)) Level.HIGH).state := rfl
    rw [step]
    generalize pressTimes b (j + 1) = c at ih
    simp only [readButton, U8]
    split_ifs at ih ⊢ <;> simp_all <;> omega

set_option maxRecDepth 20000 in
/-- The closed form over 260 samples, written out. -/
theorem saturation_cycle_260 :
    (List.range 260).map (fun k => if k = 0 then 1 else 2 + (k - 1) % 253)
      = (List.range 254).map (fun k => k + 1) ++ [2, 3, 4, 5, 6, 7] := by
  decide

/-- C4: on an idle button, `n >= 1` consecutive pressed samples give the
counters 1, then 2, ..., 254 cyclically: the counter is 1 after the first
sample and within 2..254 after every later one, 254 is followed by 2, `pressed`
is true after the first sample only and `held` after every later one.  With 260
samples the counters are 1, ..., 254, 2, 3, 4, 5, 6, 7. -/
theorem held_button_saturates (b : Button) (n : Nat) (h0 : b.state = 0) (hn : 1 ≤ n) :
    counters b (List.replicate n Level.HIGH)
      = (List.range n).map (fun k => if k = 0 then 1 else 2 + (k - 1) % 253) ∧
    (pressTimes b 1).state = 1 ∧
    (2 ≤ n → 2 ≤ (pressTimes b n).state ∧ (pressTimes b n).state ≤ 254) ∧
    ((pressTimes b n).state = 254 → (pressTimes b (n + 1)).state = 2) ∧
    (pressed (pressTimes b n) = true ↔ n = 1) ∧
    (2 ≤ n → held (pressTimes b n) = true) ∧
    counters b (List.replicate 260 Level.HIGH)
      = (List.range 254).map (fun k => k + 1) ++ [2, 3, 4, 5, 6, 7] := by
  have closed : ∀ m, counters b (List.replicate m Level.HIGH)
      = (List.range m).map (fun k => if k = 0 then 1 else 2 + (k - 1) % 253) := by
    intro m
    rw [counters, samples_replicate_high, List.map_map]
    apply List.map_congr_left
    intro k _
    exact pressTimes_state b h0 k
  obtain ⟨k, rfl⟩ : ∃ k, n = k + 1 := ⟨n - 1, by omega⟩
  have hk := pressTimes_state b h0 k
  have hk1 := pressTimes_state b h0 (k + 1)
  refine ⟨closed _, by simpa using pressTimes_state b h0 0, ?_, ?_, ?_, ?_, ?_⟩
  · intro h2
    rw [hk]
    split_ifs <;> omega
  · intro h254
    rw [hk1]
    rw [hk] at h254
    rw [if_neg (Nat.succ_ne_zero k)]
    split_ifs at h254 <;> omega
  · simp only [pressed, decide_eq_true_eq, hk]
    split_ifs <;> omega
  · intro h2
    simp only [held, hk, Bool.and_eq_true, decide_eq_true_eq]
    split_ifs <;> omega
  · rw [closed 260]
    exact saturation_cycle_260

/-- Witness of C4: after 255 pressed samples an idle button is held. -/
theorem held_button_saturates_witness :
    (0 : Nat) = 0 ∧ 1 ≤ 255 ∧ held (pressTimes { pin := 4, state := 0 } 255) = true :=
  ⟨rfl, by decide,
    (held_button_saturates { pin := 4, state := 0 } 255 rfl (by decide)).2.2.2.2.2.1
      (by decide)⟩

/-! ## Time control of the main loop: theorems -/

/-- The value of `WAIT_PERIOD`: 40 ms. -/
theorem WAIT_PERIOD_eq : WAIT_PERIOD = 40 := by decide

/-- As long as the readings are too early the loop keeps polling; the first
late enough reading releases the cycle. -/
theorem waitForNextCycle_release (timer : Timer) (earlier : List Nat) (now : Nat)
    (later : List Nat)
    (hearly : ∀ r ∈ earlier, sub32 r timer.laptime < WAIT_PERIOD)
    (hnow : WAIT_PERIOD ≤ sub32 now timer.laptime) :
    waitForNextCycle timer (earlier ++ now :: later)
      = some ({ laptime := now, ticks := (timer.ticks + 1) % U32 }, later) := by
  induction earlier with
  | nil =>
    simp only [List.nil_append, waitForNextCycle]
    rw [if_neg (by omega)]
  | cons r rest ih =>
    have hr : sub32 r timer.laptime < WAIT_PERIOD := hearly r (List.mem_cons_self r rest)
    simp only [List.cons_append, waitForNextCycle]
    rw [if_pos hr]
    exact ih fun x hx => hearly x (List.mem_cons_of_mem r hx)

/-- When the loop returns, the readings split into too early ones, the
releasing one and the unread ones. -/
theorem waitForNextCycle_some (timer : Timer) (clock : List Nat) (t : Timer)
    (later : List Nat) (h : waitForNextCycle timer clock = some (t, later)) :
    ∃ earlier now, clock = earlier ++ now :: later ∧
      (∀ r ∈ earlier, sub32 r timer.laptime < WAIT_PERIOD) ∧
      WAIT_PERIOD ≤ sub32 now timer.laptime ∧
      t = { laptime := now, ticks := (timer.ticks + 1) % U32 } := by
  induction clock with
  | nil => simp [waitForNextCycle] at h
  | cons r rest ih =>
    simp only [waitForNextCycle] at h
    split_ifs at h with hr
    · obtain ⟨earlier, now, hc, he, hn, ht⟩ := ih h
      refine ⟨r :: earlier, now, by rw [hc]; rfl, ?_, hn, ht⟩
      intro x hx
      rcases List.mem_cons.mp hx with rfl | hx
      · exact hr
      · exact he x hx
    · simp only [Option.some.injEq, Prod.mk.injEq] at h
      obtain ⟨ht, hl⟩ := h
      subst hl
      exact ⟨[], r, rfl, by simp, by omega, ht.symm⟩

/-- C2, as stated, fails at the largest tick count: from `ticks = 4294967295`
the cycle is released with `ticks = 0`, not with one more. -/
theorem waitForNextCycle_ticks_counterexample :
    waitForNextCycle { laptime := 0, ticks := 4294967295 } [40]
      = some ({ laptime := 40, ticks := 0 }, []) ∧
    ¬ ((0 : Nat) = 4294967295 + 1) := by
  decide

/-- C2, amended: `waitForNextCycle` returns as soon as a reading `now` has
`now - laptime >= WAIT_PERIOD` (40 ms) in `uint32_t` arithmetic; and whenever it
returns, every earlier reading had a difference below `WAIT_PERIOD`, that of
`now` is at least `WAIT_PERIOD`, the new `laptime` is `now`, and the new `ticks`
is `(ticks + 1) mod 2^32`: one more below `2^32 - 1`, and 0 at `2^32 - 1`. -/
theorem waitForNextCycle_contract (timer : Timer) (clock : List Nat) :
    WAIT_PERIOD = 40 ∧
    (∀ earlier now later, clock = earlier ++ now :: later →
      (∀ r ∈ earlier, sub32 r timer.laptime < WAIT_PERIOD) →
      WAIT_PERIOD ≤ sub32 now timer.laptime →
      waitForNextCycle timer clock
        = some ({ laptime := now, ticks := (timer.ticks + 1) % U32 }, later)) ∧
    (∀ t later, waitForNextCycle timer clock = some (t, later) →
      ∃ earlier now, clock = earlier ++ now :: later ∧
        (∀ r ∈ earlier, sub32 r timer.laptime < WAIT_PERIOD) ∧
        WAIT_PERIOD ≤ sub32 now timer.laptime ∧
        t.laptime = now ∧
        t.ticks = (timer.ticks + 1) % U32 ∧
        (timer.ticks + 1 < U32 → t.ticks = timer.ticks + 1) ∧
        (timer.ticks + 1 = U32 → t.ticks = 0)) := by
  refine ⟨WAIT_PERIOD_eq, ?_, ?_⟩
  · intro earlier now later hc he hn
    rw [hc]
    exact waitForNextCycle_release timer earlier now later he hn
  · intro t later h
    obtain ⟨earlier, now, hc, he, hn, ht⟩ := waitForNextCycle_some timer clock t later h
    refine ⟨earlier, now, hc, he, hn, by rw [ht], by rw [ht], ?_, ?_⟩
    · intro hlt
      rw [ht]
      exact Nat.mod_eq_of_lt hlt
    · intro heq
      rw [ht]
      simp [heq]

/-- Witness of the amended C2: with `laptime = 1000` the readings 1010 and 1039
are too early and 1040 releases the cycle, leaving 1041 unread; and from the
largest tick count the returned timer has `ticks = 0`. -/
theorem waitForNextCycle_contract_witness :
    waitForNextCycle { laptime := 1000, ticks := 7 } [1010, 1039, 1040, 1041]
      = some ({ laptime := 1040, ticks := 8 }, [1041]) ∧
    (waitForNextCycle { laptime := 0, ticks := 4294967295 } [40]
        = some ({ laptime := 40, ticks := 0 }, []) ∧
      ∃ earlier now, [40] = earlier ++ now :: ([] : List Nat) ∧
        (∀ r ∈ earlier, sub32 r 0 < WAIT_PERIOD) ∧ WAIT_PERIOD ≤ sub32 now 0) :=
  ⟨(waitForNextCycle_contract { laptime := 1000, ticks := 7 } [1010, 1039, 1040, 1041]).2.1
      [1010, 1039] 1040 [1041] rfl (by decide) (by decide),
   by decide,
   by
    obtain ⟨earlier, now, h1, h2, h3, _⟩ :=
      (waitForNextCycle_contract { laptime := 0, ticks := 4294967295 } [40]).2.2
        { laptime := 40, ticks := 0 } [] (by decide)
    exact ⟨earlier, now, h1, h2, h3⟩⟩

/-- C5: the elapsed-time test is exact across clock wraparound.  With any
`laptime`, a true elapsed time `d` below `2^32` and the reading
`now = (laptime + d) mod 2^32`, the `uint32_t` difference `now - laptime` is `d`,
so the loop keeps polling exactly when `d < WAIT_PERIOD`; `laptime = 2^32 - 10`
and `now = 30` give 40 and release the cycle. -/
theorem elapsed_time_wraparound (laptime d : Nat) (hd : d < U32) :
    sub32 ((laptime + d) % U32) laptime = d ∧
    (∀ ticks later,
      waitForNextCycle { laptime := laptime, ticks := ticks } ((laptime + d) % U32 :: later)
        = if d < WAIT_PERIOD then
            waitForNextCycle { laptime := laptime, ticks := ticks } later
          else
            some ({ laptime := (laptime + d) % U32, ticks := (ticks + 1) % U32 }, later)) ∧
    sub32 30 (U32 - 10) = 40 ∧
    waitForNextCycle { laptime := U32 - 10, ticks := 0 } [30]
      = some ({ laptime := 30, ticks := 1 }, []) := by
  have hsub : sub32 ((laptime + d) % U32) laptime = d := by
    simp only [sub32, U32] at *
    omega
  refine ⟨hsub, ?_, by decide, by decide⟩
  intro ticks later
  simp only [waitForNextCycle, hsub]

/-- Witness of C5 just before the wrap: `laptime = 2^32 - 1` and one elapsed
millisecond. -/
theorem elapsed_time_wraparound_witness :
    1 < U32 ∧ (4294967295 + 1) % U32 = 0 ∧ sub32 ((4294967295 + 1) % U32) 4294967295 = 1 :=
  ⟨by decide, by decide, (elapsed_time_wraparound 4294967295 1 (by decide)).1⟩

/-- C6, as stated, fails once `5 * ticks` leaves the `uint32_t` range:
`ticks = 858993460` is a multiple of 5, yet the product wraps to 4 and the gate
is false. -/
theorem loopGate_overflow_counterexample :
    858993460 < U32 ∧ 858993460 % 5 = 0 ∧ (5 * 858993460) % U32 = 4 ∧
    TimeControl.loopGate 858993460 = false := by
  decide

/-- The gate of `loop()` over the whole `uint32_t` range: it is true exactly at
the multiples of 5 whose product `5 * ticks` fits in 32 bits. -/
theorem loopGate_iff (ticks : Nat) (h : ticks < U32) :
    TimeControl.loopGate ticks = true ↔ ticks % 5 = 0 ∧ 5 * ticks < U32 := by
  have e : TimeControl.loopGate ticks = true ↔ (5 * ticks) % 4294967296 % 25 = 0 := by
    unfold TimeControl.loopGate U32 LOOP_FREQUENCY
    exact decide_eq_true_iff
  have h32 : ticks < 4294967296 := h
  rw [e]
  show _ ↔ _ ∧ 5 * ticks < 4294967296
  have hr : (5 * ticks) % 4294967296 < 4294967296 := Nat.mod_lt _ (by norm_num)
  have hd := Nat.div_add_mod (5 * ticks) 4294967296
  generalize (5 * ticks) % 4294967296 = r at hr hd ⊢
  generalize (5 * ticks) / 4294967296 = q at hd
  have hq : q < 5 := by omega
  interval_cases q <;> omega

/-- C6, amended: for every 32-bit `ticks` the gate
`5 * ticks % LOOP_FREQUENCY == 0` is true exactly when `ticks % 5 == 0` and the
product `5 * ticks` fits in 32 bits (`ticks <= 858993459`).  So a true gate
implies `ticks % 5 == 0` for every 32-bit value, the gate is true exactly when
`ticks % 5 == 0` as long as the product fits, and once the product wraps
(`ticks >= 858993460`) the gate is false, at the multiples of 5 too. -/
theorem loopGate_every_five_ticks (ticks : Nat) (h : ticks < U32) :
    (TimeControl.loopGate ticks = true ↔ ticks % 5 = 0 ∧ 5 * ticks < U32) ∧
    (TimeControl.loopGate ticks = true → ticks % 5 = 0) ∧
    (5 * ticks < U32 → (TimeControl.loopGate ticks = true ↔ ticks % 5 = 0)) ∧
    (ticks ≤ 858993459 ↔ 5 * ticks < U32) ∧
    (U32 ≤ 5 * ticks → TimeControl.loopGate ticks = false) := by
  have key := loopGate_iff ticks h
  refine ⟨key, fun hg => (key.mp hg).1, ?_, ?_, ?_⟩
  · intro hfit
    exact ⟨fun hg => (key.mp hg).1, fun h5 => key.mpr ⟨h5, hfit⟩⟩
  · simp only [U32]
    omega
  · intro hwrap
    cases hg : TimeControl.loopGate ticks with
    | false => rfl
    | true =>
      have hfit := (key.mp hg).2
      omega

/-- Witness of the amended C6: the gate is true at 858993455, the last multiple
of 5 whose product fits, and false at 858993460, the first one whose product
wraps. -/
theorem loopGate_every_five_ticks_witness :
    (858993455 < U32 ∧ 5 * 858993455 < U32 ∧ TimeControl.loopGate 858993455 = true) ∧
    (858993460 < U32 ∧ U32 ≤ 5 * 858993460 ∧ 858993460 % 5 = 0 ∧
      TimeControl.loopGate 858993460 = false) :=
  ⟨⟨by decide, by decide,
      ((loopGate_every_five_ticks 858993455 (by decide)).2.2.1 (by decide)).2 (by decide)⟩,
   ⟨by decide, by decide, by decide,
      (loopGate_every_five_ticks 858993460 (by decide)).2.2.2.2 (by decide)⟩⟩

/-! ## The active LED -/

/-- After `n` shifts from 0 the index is `n mod 3`. -/
theorem shiftLed_iterate (n : Nat) : shiftLed^[n] 0 = n % 3 := by
  induction n with
  | zero => rfl
  | succ k ih =>
    rw [Function.iterate_succ_apply', ih]
    simp only [shiftLed, U8, LED_NUMBER]
    omega

/-- C10: after any number of shifts `++ledIndex %= LED_NUMBER` from the startup
value 0, `ledIndex` is below `LED_NUMBER = 3` (it is the number of shifts modulo
3, so it cycles 0, 1, 2, 0, ...), `LED_PINS[ledIndex]` is inside the array, and
`updateLED` writes each of the three pins once, leaving the pin at `ledIndex`
`HIGH` and the other two `LOW`. -/
theorem ledIndex_in_bounds (n : Nat) :
    LED_NUMBER = 3 ∧
    shiftLed^[n] 0 < LED_NUMBER ∧
    shiftLed^[n] 0 = n % 3 ∧
    LED_PINS.get? (shiftLed^[n] 0) = some (ledPin (shiftLed^[n] 0)) ∧
    (updateLED (shiftLed^[n] 0)).length = 3 ∧
    (∀ i, i < LED_NUMBER →
      pinLevel (ledPin i) (updateLED (shiftLed^[n] 0))
        = some (if i = shiftLed^[n] 0 then Level.HIGH else Level.LOW)) ∧
    (updateLED (shiftLed^[n] 0)).count (Effect.digitalWrite (ledPin (shiftLed^[n] 0)) Level.HIGH)
      = 1 ∧
    highWrites (updateLED (shiftLed^[n] 0)) = [ledPin (shiftLed^[n] 0)] := by
  rw [shiftLed_iterate]
  have h3 : n % 3 < 3 := Nat.mod_lt n (by decide)
  generalize n % 3 = idx at h3
  have cases3 : idx = 0 ∨ idx = 1 ∨ idx = 2 := by omega
  refine ⟨rfl, h3, rfl, ?_, rfl, ?_, ?_, ?_⟩
  · rcases cases3 with rfl | rfl | rfl <;> rfl
  · intro i hi
    have ci : i = 0 ∨ i = 1 ∨ i = 2 := by simp only [LED_NUMBER] at hi; omega
    rcases cases3 with rfl | rfl | rfl <;> rcases ci with rfl | rfl | rfl <;> rfl
  · rcases cases3 with rfl | rfl | rfl <;> decide
  · rcases cases3 with rfl | rfl | rfl <;> rfl

/-- Witness of C10: after four shifts the yellow LED (index 1, pin 25) is the one
driven `HIGH`. -/
theorem ledIndex_in_bounds_witness :
    1 < LED_NUMBER ∧
    pinLevel (ledPin 1) (updateLED (shiftLed^[4] 0))
      = some (if 1 = shiftLed^[4] 0 then Level.HIGH else Level.LOW) :=
  ⟨by decide, (ledIndex_in_bounds 4).2.2.2.2.2.1 1 (by decide)⟩

/-! ## Sleep modes -/

/-- The value of `SLEEP_DURATION`: four seconds in microseconds. -/
theorem SLEEP_DURATION_eq : SLEEP_DURATION = 4000000 := by decide

/-- Wake-timer configurations of a concatenation. -/
theorem wakeTimers_append (a b : List Effect) :
    wakeTimers (a ++ b) = wakeTimers a ++ wakeTimers b := by
  induction a with
  | nil => rfl
  | cons e rest ih => cases e <;> simp [wakeTimers, ih]

/-- Suspend calls of a concatenation. -/
theorem suspendCalls_append (a b : List Effect) :
    suspendCalls (a ++ b) = suspendCalls a + suspendCalls b := by
  induction a with
  | nil => simp [suspendCalls]
  | cons e rest ih => cases e <;> simp [suspendCalls, ih] <;> omega

/-- Calls of `delay` of a concatenation. -/
theorem delayCalls_append (a b : List Effect) :
    delayCalls (a ++ b) = delayCalls a + delayCalls b := by
  induction a with
  | nil => simp [delayCalls]
  | cons e rest ih =>
    cases e <;> simp [delayCalls, ih]
    omega

/-- The calls of `updateLED` only write pins. -/
theorem updateLED_quiet (ledIndex : Nat) :
    wakeTimers (updateLED ledIndex) = [] ∧ suspendCalls (updateLED ledIndex) = 0 ∧
    delayCalls (updateLED ledIndex) = 0 :=
  ⟨rfl, rfl, rfl⟩

/-- The calls of `flashActiveLED`: eleven delays, no sleep call. -/
theorem flashActiveLED_calls (ledIndex : Nat) :
    wakeTimers (flashActiveLED ledIndex) = [] ∧ suspendCalls (flashActiveLED ledIndex) = 0 ∧
    delayCalls (flashActiveLED ledIndex) = 11 :=
  ⟨rfl, rfl, rfl⟩

/-- A released sleep button ends the pass of the deep-sleep `loop()` in
`esp_deep_sleep_start()`. -/
theorem DeepSleep.loop_released (s : Sketch) (shiftLevel sleepLevel : Level) (clock : List Nat)
    (h : released (readButton s.sleepButton sleepLevel) = true) :
    DeepSleep.loop s shiftLevel sleepLevel clock
      = ((if pressed (readButton s.shiftButton shiftLevel)
            then updateLED (shiftLed s.ledIndex) else []) ++ DeepSleep.deepSleep,
         DeepSleep.Outcome.asleep
          { ledIndex := if pressed (readButton s.shiftButton shiftLevel)
                          then shiftLed s.ledIndex else s.ledIndex
            timer := s.timer
            shiftButton := readButton s.shiftButton shiftLevel
            sleepButton := readButton s.sleepButton sleepLevel }) := by
  simp only [DeepSleep.loop, h, if_true]
  split_ifs <;> rfl

/-- Without a released sleep button the deep-sleep `loop()` goes on to
`waitForNextCycle()`. -/
theorem DeepSleep.loop_not_released (s : Sketch) (shiftLevel sleepLevel : Level)
    (clock : List Nat) (h : released (readButton s.sleepButton sleepLevel) = false) :
    DeepSleep.loop s shiftLevel sleepLevel clock
      = ((if pressed (readButton s.shiftButton shiftLevel)
            then updateLED (shiftLed s.ledIndex) else []),
         match waitForNextCycle s.timer clock with
         | some r => DeepSleep.Outcome.next
            { ledIndex := if pressed (readButton s.shiftButton shiftLevel)
                            then shiftLed s.ledIndex else s.ledIndex
              timer := r.1
              shiftButton := readButton s.shiftButton shiftLevel
              sleepButton := readButton s.sleepButton sleepLevel } r.2
         | none => DeepSleep.Outcome.waiting) := by
  simp only [DeepSleep.loop, h, Bool.false_eq_true, if_false]
  split_ifs <;> rfl

/-- C8: deep-suspend round trip.  Whatever the state before the suspend, after
the restart (retained `ledIndex` kept, ordinary memory initialised afresh, then
`setup()`) `ledIndex` is the one from before `deepSleep()`, `timer.ticks` is 0
and both button counters are 0; this holds in particular for the state in which
`loop()` enters `esp_deep_sleep_start()`. -/
theorem deep_sleep_round_trip (s : Sketch) (now : Nat) (cause : WakeupCause) :
    (DeepSleep.restart s now cause).1.ledIndex = s.ledIndex ∧
    (DeepSleep.restart s now cause).1.timer.ticks = 0 ∧
    (DeepSleep.restart s now cause).1.timer.laptime = now ∧
    (DeepSleep.restart s now cause).1.shiftButton.state = 0 ∧
    (DeepSleep.restart s now cause).1.sleepButton.state = 0 ∧
    (∀ shiftLevel sleepLevel clock before,
      (DeepSleep.loop s shiftLevel sleepLevel clock).2 = DeepSleep.Outcome.asleep before →
      (DeepSleep.restart before now cause).1.ledIndex = before.ledIndex ∧
      (DeepSleep.restart before now cause).1.timer.ticks = 0 ∧
      before.timer.ticks = s.timer.ticks) := by
  refine ⟨rfl, rfl, rfl, rfl, rfl, ?_⟩
  intro shiftLevel sleepLevel clock before h
  refine ⟨rfl, rfl, ?_⟩
  cases hr : released (readButton s.sleepButton sleepLevel) with
  | true =>
    rw [DeepSleep.loop_released s shiftLevel sleepLevel clock hr] at h
    simp only [DeepSleep.Outcome.asleep.injEq] at h
    rw [← h]
  | false =>
    rw [DeepSleep.loop_not_released s shiftLevel sleepLevel clock hr] at h
    simp only at h
    split at h <;> simp at h

/-- Witness of C8: releasing the sleep button after 123456 ticks with the green
LED active; after the restart the LED index is still 2 and the ticks are 0. -/
theorem deep_sleep_round_trip_witness :
    (DeepSleep.loop ⟨2, ⟨5000, 123456⟩, ⟨4, 0⟩, ⟨2, 30⟩⟩ Level.LOW Level.LOW [5040]).2
      = DeepSleep.Outcome.asleep ⟨2, ⟨5000, 123456⟩, ⟨4, 0⟩, ⟨2, 255⟩⟩ ∧
    (DeepSleep.restart ⟨2, ⟨5000, 123456⟩, ⟨4, 0⟩, ⟨2, 255⟩⟩ 17
      WakeupCause.ESP_SLEEP_WAKEUP_TIMER).1.ledIndex = 2 ∧
    (DeepSleep.restart ⟨2, ⟨5000, 123456⟩, ⟨4, 0⟩, ⟨2, 255⟩⟩ 17
      WakeupCause.ESP_SLEEP_WAKEUP_TIMER).1.timer.ticks = 0 :=
  ⟨by decide,
   ((deep_sleep_round_trip ⟨2, ⟨5000, 123456⟩, ⟨4, 0⟩, ⟨2, 30⟩⟩ 17
      WakeupCause.ESP_SLEEP_WAKEUP_TIMER).2.2.2.2.2 Level.LOW Level.LOW [5040]
      ⟨2, ⟨5000, 123456⟩, ⟨4, 0⟩, ⟨2, 255⟩⟩ (by decide)).1,
   ((deep_sleep_round_trip ⟨2, ⟨5000, 123456⟩, ⟨4, 0⟩, ⟨2, 30⟩⟩ 17
      WakeupCause.ESP_SLEEP_WAKEUP_TIMER).2.2.2.2.2 Level.LOW Level.LOW [5040]
      ⟨2, ⟨5000, 123456⟩, ⟨4, 0⟩, ⟨2, 255⟩⟩ (by decide)).2.1⟩

/-- The trace of the light-sleep `loop()`. -/
theorem LightSleep.loop_trace (s : Sketch) (shiftLevel sleepLevel : Level) (clock : List Nat) :
    (LightSleep.loop s shiftLevel sleepLevel clock).1
      = (if pressed (readButton s.shiftButton shiftLevel)
            then updateLED (shiftLed s.ledIndex) else [])
        ++ (if released (readButton s.sleepButton sleepLevel)
            then LightSleep.lightSleep
              ++ flashActiveLED (if pressed (readButton s.shiftButton shiftLevel)
                                  then shiftLed s.ledIndex else s.ledIndex)
            else []) := by
  simp only [LightSleep.loop]
  split_ifs <;> rfl

/-- C7: the sleep button as trigger, on the trace of hardware calls.  In a pass
through `loop()` in which `released(&sleepButton)` holds after sampling, the
trace is the LED update (if any) followed by one wake-timer configuration with
`SLEEP_DURATION = 4000000` and one suspend call; the light-sleep sketch goes on
with exactly the calls of one `flashActiveLED()`, the deep-sleep sketch stops
there and the restarted `setup()` ends with the calls of one `flashActiveLED()`
when the wake cause is the timer and with none for any other cause.  In a pass
in which `released` is false there is no wake-timer configuration, no suspend
call and no `delay`, and the pass does not end asleep. -/
theorem sleep_button_release_trace (s : Sketch) (shiftLevel sleepLevel : Level)
    (clock : List Nat) (now : Nat) (cause : WakeupCause) :
    SLEEP_DURATION = 4000000 ∧
    (released (readButton s.sleepButton sleepLevel) = true →
      ∃ shown ledIndex before,
        ledIndex = (if pressed (readButton s.shiftButton shiftLevel)
                      then shiftLed s.ledIndex else s.ledIndex) ∧
        shown = (if pressed (readButton s.shiftButton shiftLevel)
                      then updateLED ledIndex else []) ∧
        wakeTimers shown = [] ∧ suspendCalls shown = 0 ∧ delayCalls shown = 0 ∧
        (LightSleep.loop s shiftLevel sleepLevel clock).1
          = shown ++ [Effect.esp_sleep_enable_timer_wakeup 4000000, Effect.esp_light_sleep_start]
              ++ flashActiveLED ledIndex ∧
        wakeTimers (LightSleep.loop s shiftLevel sleepLevel clock).1 = [4000000] ∧
        suspendCalls (LightSleep.loop s shiftLevel sleepLevel clock).1 = 1 ∧
        delayCalls (LightSleep.loop s shiftLevel sleepLevel clock).1 = 11 ∧
        DeepSleep.loop s shiftLevel sleepLevel clock
          = (shown ++ [Effect.esp_sleep_enable_timer_wakeup 4000000, Effect.esp_deep_sleep_start],
             DeepSleep.Outcome.asleep before) ∧
        wakeTimers (DeepSleep.loop s shiftLevel sleepLevel clock).1 = [4000000] ∧
        suspendCalls (DeepSleep.loop s shiftLevel sleepLevel clock).1 = 1 ∧
        delayCalls (DeepSleep.loop s shiftLevel sleepLevel clock).1 = 0 ∧
        before.ledIndex = ledIndex ∧
        (DeepSleep.restart before now WakeupCause.ESP_SLEEP_WAKEUP_TIMER).2
          = DeepSleep.setupCalls ledIndex ++ flashActiveLED ledIndex ∧
        delayCalls (DeepSleep.restart before now WakeupCause.ESP_SLEEP_WAKEUP_TIMER).2 = 11 ∧
        (cause ≠ WakeupCause.ESP_SLEEP_WAKEUP_TIMER →
          (DeepSleep.restart before now cause).2 = DeepSleep.setupCalls ledIndex ∧
          delayCalls (DeepSleep.restart before now cause).2 = 0) ∧
        suspendCalls (DeepSleep.restart before now cause).2 = 0 ∧
        wakeTimers (DeepSleep.restart before now cause).2 = []) ∧
    (released (readButton s.sleepButton sleepLevel) = false →
      wakeTimers (LightSleep.loop s shiftLevel sleepLevel clock).1 = [] ∧
      suspendCalls (LightSleep.loop s shiftLevel sleepLevel clock).1 = 0 ∧
      delayCalls (LightSleep.loop s shiftLevel sleepLevel clock).1 = 0 ∧
      wakeTimers (DeepSleep.loop s shiftLevel sleepLevel clock).1 = [] ∧
      suspendCalls (DeepSleep.loop s shiftLevel sleepLevel clock).1 = 0 ∧
      delayCalls (DeepSleep.loop s shiftLevel sleepLevel clock).1 = 0 ∧
      ∀ before, (DeepSleep.loop s shiftLevel sleepLevel clock).2
        ≠ DeepSleep.Outcome.asleep before) := by
  have quiet : ∀ c : Bool, wakeTimers (if c then updateLED (shiftLed s.ledIndex) else []) = [] ∧
      suspendCalls (if c then updateLED (shiftLed s.ledIndex) else []) = 0 ∧
      delayCalls (if c then updateLED (shiftLed s.ledIndex) else []) = 0 := by
    intro c
    cases c
    · exact ⟨rfl, rfl, rfl⟩
    · exact updateLED_quiet _
  refine ⟨SLEEP_DURATION_eq, ?_, ?_⟩
  · intro h
    obtain ⟨q1, q2, q3⟩ := quiet (pressed (readButton s.shiftButton shiftLevel))
    have hlight := LightSleep.loop_trace s shiftLevel sleepLevel clock
    rw [if_pos h] at hlight
    have hdeep := DeepSleep.loop_released s shiftLevel sleepLevel clock h
    refine ⟨_, _, _, rfl, ?_, q1, q2, q3, ?_, ?_, ?_, ?_, hdeep, ?_, ?_, ?_, rfl, ?_, ?_, ?_,
      ?_, ?_⟩
    · split_ifs <;> rfl
    · rw [hlight, List.append_assoc]; rfl
    · rw [hlight, wakeTimers_append, wakeTimers_append, q1, (flashActiveLED_calls _).1]; rfl
    · rw [hlight, suspendCalls_append, suspendCalls_append, q2, (flashActiveLED_calls _).2.1]; rfl
    · rw [hlight, delayCalls_append, delayCalls_append, q3, (flashActiveLED_calls _).2.2]; rfl
    · rw [hdeep]; simp only; rw [wakeTimers_append, q1]; rfl
    · rw [hdeep]; simp only; rw [suspendCalls_append, q2]; rfl
    · rw [hdeep]; simp only; rw [delayCalls_append, q3]; rfl
    · rfl
    · rfl
    · intro hc
      constructor
      · simp only [DeepSleep.restart, DeepSleep.setup, if_neg hc]; rfl
      · simp only [DeepSleep.restart, DeepSleep.setup, if_neg hc]; rfl
    · simp only [DeepSleep.restart, DeepSleep.setup]
      split_ifs <;> rfl
    · simp only [DeepSleep.restart, DeepSleep.setup]
      split_ifs <;> rfl
  · intro h
    obtain ⟨q1, q2, q3⟩ := quiet (pressed (readButton s.shiftButton shiftLevel))
    have hlight := LightSleep.loop_trace s shiftLevel sleepLevel clock
    rw [h] at hlight
    simp only [Bool.false_eq_true, if_false, List.append_nil] at hlight
    have hdeep := DeepSleep.loop_not_released s shiftLevel sleepLevel clock h
    refine ⟨by rw [hlight]; exact q1, by rw [hlight]; exact q2, by rw [hlight]; exact q3,
      by rw [hdeep]; exact q1, by rw [hdeep]; exact q2, by rw [hdeep]; exact q3, ?_⟩
    intro before hb
    rw [hdeep] at hb
    simp only at hb
    split at hb <;> simp at hb

/-- Witness of C7.  Releasing the sleep button (counter 30, released sample):
one suspend call in the light-sleep pass, and the deep-sleep pass ends asleep.
Keeping it pressed (pressed sample): no suspend call. -/
theorem sleep_button_release_trace_witness :
    (released (readButton ⟨2, 30⟩ Level.LOW) = true ∧
      suspendCalls
        (LightSleep.loop ⟨1, ⟨5000, 9⟩, ⟨4, 0⟩, ⟨2, 30⟩⟩ Level.LOW Level.LOW [5040]).1 = 1 ∧
      delayCalls
        (LightSleep.loop ⟨1, ⟨5000, 9⟩, ⟨4, 0⟩, ⟨2, 30⟩⟩ Level.LOW Level.LOW [5040]).1 = 11) ∧
    (released (readButton ⟨2, 30⟩ Level.HIGH) = false ∧
      suspendCalls
        (DeepSleep.loop ⟨1, ⟨5000, 9⟩, ⟨4, 0⟩, ⟨2, 30⟩⟩ Level.LOW Level.HIGH [5040]).1 = 0) := by
  refine ⟨⟨by decide, ?_, ?_⟩, by decide, ?_⟩
  · obtain ⟨_, _, _, _, _, _, _, _, _, _, h, _⟩ :=
      (sleep_button_release_trace ⟨1, ⟨5000, 9⟩, ⟨4, 0⟩, ⟨2, 30⟩⟩ Level.LOW Level.LOW [5040] 0
        WakeupCause.ESP_SLEEP_WAKEUP_TIMER).2.1 (by decide)
    exact h
  · obtain ⟨_, _, _, _, _, _, _, _, _, _, _, h, _⟩ :=
      (sleep_button_release_trace ⟨1, ⟨5000, 9⟩, ⟨4, 0⟩, ⟨2, 30⟩⟩ Level.LOW Level.LOW [5040] 0
        WakeupCause.ESP_SLEEP_WAKEUP_TIMER).2.1 (by decide)
    exact h
  · exact ((sleep_button_release_trace ⟨1, ⟨5000, 9⟩, ⟨4, 0⟩, ⟨2, 30⟩⟩ Level.LOW Level.HIGH
      [5040] 0 WakeupCause.ESP_SLEEP_WAKEUP_TIMER).2.2 (by decide)).2.2.2.2.1

end SleepModes
